import Mathlib

/-!
Verification of the Treadmill Driver OpenXR API layer
(`src/OpenXRLayer/treadmill_layer.cpp`).

The layer intercepts `xrGetActionStateVector2f`, `xrGetActionStateFloat`
and `xrSuggestInteractionProfileBindings`, classifies suggested bindings
by path substrings, and additively injects a treadmill velocity signal
(read from a shared-memory region) into left-thumbstick queries.

Shallow embedding conventions:
* `XrResult` is `Int` (the C `int32_t`); `xrFailed r` is `r < 0`.
* `XrPath` and action keys (`uintptr_t`) are `Nat`.
* C `float` values are modelled as `ℚ`; the arithmetic the layer performs
  (addition, comparison against ±1.0, comparison against 0.0) is exact on
  the modelled range.
* The fixed-size tracking arrays (`uintptr_t vec2f[64]` plus a count) are
  modelled as lists holding the first `count` entries in order.
* External collaborators (the next chain link, `xrPathToString`, the
  shared-memory producer, `GetTickCount64`) are explicit parameters.
-/

namespace TreadmillLayer

/-- `XrResult` from `openxr_defs.h`: `typedef int32_t XrResult`. -/
abbrev XrResult := Int

/-- `XrPath` from `openxr_defs.h`: `typedef uint64_t XrPath`. -/
abbrev XrPath := Nat

/-- The `uintptr_t` key a `XrAction` handle is stored and compared as. -/
abbrev ActionKey := Nat

/-- `#define XR_SUCCESS 0`. -/
def XR_SUCCESS : XrResult := 0

/-- `#define XR_ERROR_HANDLE_INVALID (-12)`. -/
def XR_ERROR_HANDLE_INVALID : XrResult := -12

/-- `#define XR_ERROR_INITIALIZATION_FAILED (-38)`. -/
def XR_ERROR_INITIALIZATION_FAILED : XrResult := -38

/-- `#define XR_NULL_PATH 0`. -/
def XR_NULL_PATH : XrPath := 0

/-- `#define XR_FAILED(result) ((result) < 0)`. -/
def xrFailed (r : XrResult) : Bool := r < 0

/-- `#define MAX_TRACKED_ACTIONS 64`. -/
def MAX_TRACKED_ACTIONS : Nat := 64

/-- `#define SHARED_MEM_RETRY_MS 2000`. -/
def SHARED_MEM_RETRY_MS : Nat := 2000

/-- Character-list prefix test, used by `strstr` below. -/
def prefixChars : List Char → List Char → Bool
  | [], _ => true
  | _ :: _, [] => false
  | a :: as, b :: bs => a == b && prefixChars as bs

/-- C `strstr(hay, needle) != NULL`: does `needle` occur as a contiguous
substring of `hay`? -/
def strstr (needle : List Char) : List Char → Bool
  | [] => needle.isEmpty
  | c :: t => prefixChars needle (c :: t) || strstr needle t

/-- The `"/user/hand/left"` marker tested at line 196. -/
def leftHandMarker : List Char := "/user/hand/left".data

/-- The `"thumbstick"` marker tested at line 197. -/
def thumbstickMarker : List Char := "thumbstick".data

/-- The `"thumbstick/y"` marker tested at line 206. -/
def thumbstickYMarker : List Char := "thumbstick/y".data

/-- The `"thumbstick/x"` marker tested at line 208. -/
def thumbstickXMarker : List Char := "thumbstick/x".data

/-- `struct TrackedActions`: the two fixed-capacity key arrays (modelled as
the lists of their first `count` entries) plus the `bindingsReceived` flag. -/
structure TrackedActions where
  vec2f : List ActionKey
  floatY : List ActionKey
  bindingsReceived : Bool
deriving Repr, DecidableEq

/-- The zero-initialised `g_tracked` global. -/
def emptyTracked : TrackedActions := ⟨[], [], false⟩

/-- `ContainsAction(arr, count, key)`: linear scan for `key`. -/
def ContainsAction : List ActionKey → ActionKey → Bool
  | [], _ => false
  | a :: t, key => a == key || ContainsAction t key

/-- `AddAction(arr, count, key)`: no-op when the array already holds
`MAX_TRACKED_ACTIONS` entries or already contains `key`; otherwise appends
`key` at index `count` and increments the count. -/
def AddAction (arr : List ActionKey) (key : ActionKey) : List ActionKey :=
  if MAX_TRACKED_ACTIONS ≤ arr.length then arr
  else if ContainsAction arr key then arr
  else arr ++ [key]

/-- `struct XrActionSuggestedBinding`: an action handle and a binding path. -/
structure Binding where
  action : ActionKey
  binding : XrPath
deriving Repr, DecidableEq

/-- One iteration of the loop body of
`TreadmillLayer_xrSuggestInteractionProfileBindings` (lines 186-213).
`resolve` models the chained `g_xrPathToString`: `none` for `XR_FAILED(pr)`;
an entry resolving to the empty string is skipped like a failed one
(`pathLen == 0`). -/
def classifyBinding (resolve : XrPath → Option (List Char))
    (t : TrackedActions) (b : Binding) : TrackedActions :=
  match resolve b.binding with
  | none => t
  | some pathStr =>
    if pathStr.isEmpty then t
    else
      let isLeft := strstr leftHandMarker pathStr
      let isThumbstick := strstr thumbstickMarker pathStr
      if isLeft && isThumbstick then
        let t1 :=
          if strstr thumbstickYMarker pathStr then
            { t with floatY := AddAction t.floatY b.action }
          else if strstr thumbstickXMarker pathStr then t
          else { t with vec2f := AddAction t.vec2f b.action }
        { t1 with bindingsReceived := true }
      else t

/-- The whole classification loop over a suggested-bindings event. -/
def processBindings (resolve : XrPath → Option (List Char))
    (bindings : List Binding) (t : TrackedActions) : TrackedActions :=
  bindings.foldl (classifyBinding resolve) t

/-- `TreadmillLayer_xrSuggestInteractionProfileBindings`: forward first
(`fwdResult` is the chained call's result); on failure return it with no
classification; if `g_xrPathToString` is unavailable skip the scan;
otherwise run the classification loop. -/
def suggestInteractionProfileBindings (fwdResult : XrResult)
    (pathToStringAvailable : Bool) (resolve : XrPath → Option (List Char))
    (bindings : List Binding) (t : TrackedActions) :
    XrResult × TrackedActions :=
  if xrFailed fwdResult then (fwdResult, t)
  else if !pathToStringAvailable then (fwdResult, t)
  else (fwdResult, processBindings resolve bindings t)

/-- `struct TreadmillSharedData`: the 8-byte shared-memory record. -/
structure TreadmillSharedData where
  velocity : ℚ
  active : Nat
deriving Repr, DecidableEq

/-- The external producer side at the moment of one call: whether
`OpenFileMappingA` would succeed, whether `MapViewOfFile` would then
succeed, and the record currently visible through a live mapping. -/
structure ProducerEnv where
  canOpen : Bool
  canMap : Bool
  record : TreadmillSharedData
deriving Repr, DecidableEq

/-- The connection state held in `g_sharedMemHandle`, `g_sharedData` and
`g_lastSharedMemAttempt`. `handleOpen` is `g_sharedMemHandle != NULL`,
`mapped` is `g_sharedData != NULL`, `lastAttempt` is the tick-count of the
last retry. -/
structure SharedMemState where
  handleOpen : Bool
  mapped : Bool
  lastAttempt : Nat
deriving Repr, DecidableEq

/-- `OpenSharedMemory()`: early-out when `g_sharedMemHandle` is already
non-null; otherwise try to open, and on success try to map. A failed map
leaves the handle open but `g_sharedData` null. -/
def OpenSharedMemory (env : ProducerEnv) (s : SharedMemState) :
    SharedMemState :=
  if s.handleOpen then s
  else if env.canOpen then { s with handleOpen := true, mapped := env.canMap }
  else s

/-- `ReadTreadmillVelocity()` at tick-count `now`: when `g_sharedData` is
null and the retry interval has elapsed, record the attempt time and call
`OpenSharedMemory`; then return `velocity` when mapped and `active` is
nonzero, else `0.0`. Returns the value and the updated connection state. -/
def ReadTreadmillVelocity (env : ProducerEnv) (now : Nat)
    (s : SharedMemState) : ℚ × SharedMemState :=
  let s1 :=
    if !s.mapped then
      if SHARED_MEM_RETRY_MS ≤ now - s.lastAttempt then
        OpenSharedMemory env { s with lastAttempt := now }
      else s
    else s
  if s1.mapped && env.record.active != 0 then (env.record.velocity, s1)
  else (0, s1)

/-- `struct XrActionStateGetInfo` (the fields the layer reads). -/
structure GetInfo where
  action : ActionKey
  subactionPath : XrPath
deriving Repr, DecidableEq

/-- `struct XrActionStateVector2f` (the fields the layer reads or writes;
`x`,`y` are `currentState.x`, `currentState.y`). -/
structure Vector2fState where
  x : ℚ
  y : ℚ
  changedSinceLastSync : Bool
  lastChangeTime : Int
  isActive : Bool
deriving Repr, DecidableEq

/-- `struct XrActionStateFloat` (the fields the layer reads or writes). -/
structure FloatState where
  currentState : ℚ
  changedSinceLastSync : Bool
  lastChangeTime : Int
  isActive : Bool
deriving Repr, DecidableEq

/-- The first clamp statement `if (v > 1.0f) v = 1.0f;` (lines 251, 288). -/
def clampUpper (v : ℚ) : ℚ := if 1 < v then 1 else v

/-- The clamp sequence `if (v > 1.0f) v = 1.0f; if (v < -1.0f) v = -1.0f;`
applied after the additive update (lines 251-252 and 288-289). -/
def clampUnit (v : ℚ) : ℚ :=
  if clampUpper v < -1 then -1 else clampUpper v

/-- `TreadmillLayer_xrGetActionStateVector2f` (lines 221-258), with the
forwarded call's outputs (`fwdResult`, `fwdState`) and the globals it
consults passed explicitly. Returns the `XrResult`, the caller-visible
state struct, and the updated shared-memory connection state. -/
def getActionStateVector2f (fwdResult : XrResult) (fwdState : Vector2fState)
    (getInfo : GetInfo) (leftHandPath : XrPath) (tracked : TrackedActions)
    (env : ProducerEnv) (now : Nat) (sm : SharedMemState) :
    XrResult × Vector2fState × SharedMemState :=
  if xrFailed fwdResult then (fwdResult, fwdState, sm)
  else if getInfo.subactionPath != XR_NULL_PATH &&
      getInfo.subactionPath != leftHandPath then (fwdResult, fwdState, sm)
  else
    let r := ReadTreadmillVelocity env now sm
    let velocity := r.1
    let sm1 := r.2
    if velocity = 0 then (fwdResult, fwdState, sm1)
    else
      let shouldInject :=
        if ContainsAction tracked.vec2f getInfo.action then true
        else if !tracked.bindingsReceived then true
        else false
      if shouldInject then
        (fwdResult,
          { fwdState with
              y := clampUnit (fwdState.y + velocity)
              isActive := true
              changedSinceLastSync := true }, sm1)
      else (fwdResult, fwdState, sm1)

/-- `TreadmillLayer_xrGetActionStateFloat` (lines 262-295), embedded the
same way as the 2-D handler. -/
def getActionStateFloat (fwdResult : XrResult) (fwdState : FloatState)
    (getInfo : GetInfo) (leftHandPath : XrPath) (tracked : TrackedActions)
    (env : ProducerEnv) (now : Nat) (sm : SharedMemState) :
    XrResult × FloatState × SharedMemState :=
  if xrFailed fwdResult then (fwdResult, fwdState, sm)
  else if getInfo.subactionPath != XR_NULL_PATH &&
      getInfo.subactionPath != leftHandPath then (fwdResult, fwdState, sm)
  else
    let r := ReadTreadmillVelocity env now sm
    let velocity := r.1
    let sm1 := r.2
    if velocity = 0 then (fwdResult, fwdState, sm1)
    else
      let shouldInject := ContainsAction tracked.floatY getInfo.action
      if shouldInject then
        (fwdResult,
          { fwdState with
              currentState := clampUnit (fwdState.currentState + velocity)
              isActive := true
              changedSinceLastSync := true }, sm1)
      else (fwdResult, fwdState, sm1)

/-- The chained entry points resolved (or not) by the lookup calls in
`TreadmillLayer_xrCreateApiLayerInstance` (lines 390-417); `none` means the
lookup left no function for that name. -/
structure NextLookup where
  destroyInstance : Option Nat
  pathToString : Option Nat
  stringToPath : Option Nat
  suggestBindings : Option Nat
  getStateVector2f : Option Nat
  getStateFloat : Option Nat
deriving Repr, DecidableEq

/-- A `NextLookup` in which nothing resolved. -/
def noLookup : NextLookup := ⟨none, none, none, none, none, none⟩

/-- `TreadmillLayer_xrCreateApiLayerInstance` (lines 349-425):
`hasNextInfo`, `hasNextGipa`, `hasNextCreate` model the null checks on
`layerInfo->nextInfo` and its two function pointers; `chainResult` is the
next link's create result; `lk` is what the lookups resolve. Returns the
`XrResult`, whether the layer became active (stored its globals and
returned success), and the forwarding pointers it stored. -/
def createApiLayerInstance (hasNextInfo hasNextGipa hasNextCreate : Bool)
    (chainResult : XrResult) (lk : NextLookup) :
    XrResult × Bool × NextLookup :=
  if !hasNextInfo then (XR_ERROR_INITIALIZATION_FAILED, false, noLookup)
  else if !hasNextGipa || !hasNextCreate then
    (XR_ERROR_INITIALIZATION_FAILED, false, noLookup)
  else if xrFailed chainResult then (chainResult, false, noLookup)
  else (XR_SUCCESS, true, lk)

/-- The result value the injection branch of the 2-D handler writes back
(lines 249-255): `y` clamped after the additive update, `x` and
`lastChangeTime` kept, both freshness flags forced true. -/
def injectVector2f (s : Vector2fState) (v : ℚ) : Vector2fState :=
  ⟨s.x, clampUnit (s.y + v), true, s.lastChangeTime, true⟩

/-- The result value the injection branch of the scalar handler writes back
(lines 286-292). -/
def injectFloat (s : FloatState) (v : ℚ) : FloatState :=
  ⟨clampUnit (s.currentState + v), true, s.lastChangeTime, true⟩

/-- Which set (if any) a single suggested binding is classified into, read
off the branch structure of lines 194-210. -/
inductive BindingTarget
  | toFloatY
  | toVec2f
  | toNeither
deriving Repr, DecidableEq

/-- The classification decision for one binding, separated from the state
mutation of `classifyBinding`. -/
def bindingTarget (resolve : XrPath → Option (List Char)) (b : Binding) :
    BindingTarget :=
  match resolve b.binding with
  | none => BindingTarget.toNeither
  | some pathStr =>
    if pathStr.isEmpty then BindingTarget.toNeither
    else if strstr leftHandMarker pathStr && strstr thumbstickMarker pathStr
    then
      if strstr thumbstickYMarker pathStr then BindingTarget.toFloatY
      else if strstr thumbstickXMarker pathStr then BindingTarget.toNeither
      else BindingTarget.toVec2f
    else BindingTarget.toNeither

/-- The classification states reachable from the zero-initialised
`g_tracked` by any sequence of `xrSuggestInteractionProfileBindings`
events, together with the concatenated list of bindings those events
carried. -/
inductive Reachable (resolve : XrPath → Option (List Char)) :
    List Binding → TrackedActions → Prop
  | init : Reachable resolve [] emptyTracked
  | step (bs : List Binding) (t : TrackedActions) (fwdResult : XrResult)
      (avail : Bool) (ev : List Binding) : Reachable resolve bs t →
      Reachable resolve (bs ++ ev)
        (suggestInteractionProfileBindings fwdResult avail resolve ev t).2

/-- A demonstration `xrPathToString` resolver used by concrete witness
inputs: path 1 is a left thumbstick Y path, path 2 a bare left thumbstick
path, path 3 a left thumbstick X path. -/
def demoResolve : XrPath → Option (List Char)
  | 1 => some "/user/hand/left/input/thumbstick/y".data
  | 2 => some "/user/hand/left/input/thumbstick".data
  | 3 => some "/user/hand/left/input/thumbstick/x".data
  | _ => none

/-- An event holding 64 distinct handles all bound to the Y-axis path,
enough to fill the `floatY` array to capacity. -/
def fillingEvent : List Binding := (List.range 64).map (fun i => ⟨i, 1⟩)

/-! ### Helper lemmas -/

theorem ContainsAction_iff (arr : List ActionKey) (key : ActionKey) :
    ContainsAction arr key = true ↔ key ∈ arr := by
  induction arr with
  | nil => simp [ContainsAction]
  | cons a t ih =>
    simp only [ContainsAction, Bool.or_eq_true, beq_iff_eq, ih,
      List.mem_cons]
    exact or_congr_left eq_comm

theorem ContainsAction_append (a b : List ActionKey) (key : ActionKey) :
    ContainsAction (a ++ b) key =
      (ContainsAction a key || ContainsAction b key) := by
  induction a with
  | nil => simp [ContainsAction]
  | cons x t ih => simp [ContainsAction, ih, Bool.or_assoc]

theorem ContainsAction_AddAction (arr : List ActionKey) (k key : ActionKey)
    (h : ContainsAction (AddAction arr k) key = true) :
    ContainsAction arr key = true ∨ key = k := by
  unfold AddAction at h
  split at h
  · exact Or.inl h
  · split at h
    · exact Or.inl h
    · rw [ContainsAction_append] at h
      rcases Bool.or_eq_true_iff.mp h with h1 | h1
      · exact Or.inl h1
      · simp [ContainsAction] at h1
        exact Or.inr h1.symm

theorem AddAction_self (arr : List ActionKey) (k : ActionKey)
    (h : arr.length < MAX_TRACKED_ACTIONS) :
    ContainsAction (AddAction arr k) k = true := by
  unfold AddAction
  split
  · omega
  · split
    · assumption
    · rw [ContainsAction_append]
      simp [ContainsAction]

theorem classifyBinding_floatY (resolve : XrPath → Option (List Char))
    (t : TrackedActions) (b : Binding) (key : ActionKey) :
    ContainsAction (classifyBinding resolve t b).floatY key = true →
    ContainsAction t.floatY key = true ∨
      (key = b.action ∧ bindingTarget resolve b = BindingTarget.toFloatY) := by
  cases hres : resolve b.binding with
  | none =>
    simp only [classifyBinding, hres]
    exact Or.inl
  | some pathStr =>
    simp only [classifyBinding, bindingTarget, hres]
    split_ifs with he hint hy hx
    · exact Or.inl
    · intro h
      rcases ContainsAction_AddAction t.floatY b.action key h with h1 | h1
      · exact Or.inl h1
      · exact Or.inr ⟨h1, rfl⟩
    · exact Or.inl
    · exact Or.inl
    · exact Or.inl

theorem classifyBinding_vec2f (resolve : XrPath → Option (List Char))
    (t : TrackedActions) (b : Binding) (key : ActionKey) :
    ContainsAction (classifyBinding resolve t b).vec2f key = true →
    ContainsAction t.vec2f key = true ∨
      (key = b.action ∧ bindingTarget resolve b = BindingTarget.toVec2f) := by
  cases hres : resolve b.binding with
  | none =>
    simp only [classifyBinding, hres]
    exact Or.inl
  | some pathStr =>
    simp only [classifyBinding, bindingTarget, hres]
    split_ifs with he hint hy hx
    · exact Or.inl
    · exact Or.inl
    · exact Or.inl
    · intro h
      rcases ContainsAction_AddAction t.vec2f b.action key h with h1 | h1
      · exact Or.inl h1
      · exact Or.inr ⟨h1, rfl⟩
    · exact Or.inl

theorem processBindings_floatY (resolve : XrPath → Option (List Char))
    (bs : List Binding) (t : TrackedActions) (key : ActionKey)
    (h : ContainsAction (processBindings resolve bs t).floatY key = true) :
    ContainsAction t.floatY key = true ∨
      ∃ b ∈ bs, key = b.action ∧
        bindingTarget resolve b = BindingTarget.toFloatY := by
  induction bs generalizing t with
  | nil => exact Or.inl h
  | cons b rest ih =>
    rcases ih (classifyBinding resolve t b) h with h1 | ⟨b', hb', hk⟩
    · rcases classifyBinding_floatY resolve t b key h1 with h2 | h2
      · exact Or.inl h2
      · exact Or.inr ⟨b, List.mem_cons_self b rest, h2⟩
    · exact Or.inr ⟨b', List.mem_cons_of_mem b hb', hk⟩

theorem processBindings_vec2f (resolve : XrPath → Option (List Char))
    (bs : List Binding) (t : TrackedActions) (key : ActionKey)
    (h : ContainsAction (processBindings resolve bs t).vec2f key = true) :
    ContainsAction t.vec2f key = true ∨
      ∃ b ∈ bs, key = b.action ∧
        bindingTarget resolve b = BindingTarget.toVec2f := by
  induction bs generalizing t with
  | nil => exact Or.inl h
  | cons b rest ih =>
    rcases ih (classifyBinding resolve t b) h with h1 | ⟨b', hb', hk⟩
    · rcases classifyBinding_vec2f resolve t b key h1 with h2 | h2
      · exact Or.inl h2
      · exact Or.inr ⟨b, List.mem_cons_self b rest, h2⟩
    · exact Or.inr ⟨b', List.mem_cons_of_mem b hb', hk⟩

theorem suggest_snd (fwdResult : XrResult) (avail : Bool)
    (resolve : XrPath → Option (List Char)) (ev : List Binding)
    (t : TrackedActions) :
    (suggestInteractionProfileBindings fwdResult avail resolve ev t).2 = t ∨
      (suggestInteractionProfileBindings fwdResult avail resolve ev t).2 =
        processBindings resolve ev t := by
  unfold suggestInteractionProfileBindings
  split
  · exact Or.inl rfl
  · split
    · exact Or.inl rfl
    · exact Or.inr rfl

theorem reachable_floatY_origin (resolve : XrPath → Option (List Char))
    (bs : List Binding) (t : TrackedActions) (h : Reachable resolve bs t)
    (key : ActionKey) (hmem : ContainsAction t.floatY key = true) :
    ∃ b ∈ bs, key = b.action ∧
      bindingTarget resolve b = BindingTarget.toFloatY := by
  induction h with
  | init => simp [emptyTracked, ContainsAction] at hmem
  | step bs' t' fwdResult avail ev _ ih =>
    rcases suggest_snd fwdResult avail resolve ev t' with he | he
    · rw [he] at hmem
      rcases ih hmem with ⟨b, hb, hk⟩
      exact ⟨b, List.mem_append_left ev hb, hk⟩
    · rw [he] at hmem
      rcases processBindings_floatY resolve ev t' key hmem with h1 | ⟨b, hb, hk⟩
      · rcases ih h1 with ⟨b, hb, hk⟩
        exact ⟨b, List.mem_append_left ev hb, hk⟩
      · exact ⟨b, List.mem_append_right bs' hb, hk⟩

theorem reachable_vec2f_origin (resolve : XrPath → Option (List Char))
    (bs : List Binding) (t : TrackedActions) (h : Reachable resolve bs t)
    (key : ActionKey) (hmem : ContainsAction t.vec2f key = true) :
    ∃ b ∈ bs, key = b.action ∧
      bindingTarget resolve b = BindingTarget.toVec2f := by
  induction h with
  | init => simp [emptyTracked, ContainsAction] at hmem
  | step bs' t' fwdResult avail ev _ ih =>
    rcases suggest_snd fwdResult avail resolve ev t' with he | he
    · rw [he] at hmem
      rcases ih hmem with ⟨b, hb, hk⟩
      exact ⟨b, List.mem_append_left ev hb, hk⟩
    · rw [he] at hmem
      rcases processBindings_vec2f resolve ev t' key hmem with h1 | ⟨b, hb, hk⟩
      · rcases ih h1 with ⟨b, hb, hk⟩
        exact ⟨b, List.mem_append_left ev hb, hk⟩
      · exact ⟨b, List.mem_append_right bs' hb, hk⟩

theorem clampUnit_mem (v : ℚ) : -1 ≤ clampUnit v ∧ clampUnit v ≤ 1 := by
  unfold clampUnit clampUpper
  split_ifs <;> constructor <;> linarith

/-! ### Claim theorems -/

/-- Claim C5: when the forwarded call fails, both intercepted get-state
handlers return exactly the upstream failure code, perform no injection,
and leave the caller-visible state structure (and the shared-memory
connection state) exactly as the forwarded call left them. -/
theorem C5_upstream_failure (fwdResult : XrResult) (fwdV2 : Vector2fState)
    (fwdF : FloatState) (getInfo : GetInfo) (leftHandPath : XrPath)
    (tracked : TrackedActions) (env : ProducerEnv) (now : Nat)
    (sm : SharedMemState) (h : xrFailed fwdResult = true) :
    getActionStateVector2f fwdResult fwdV2 getInfo leftHandPath tracked env
        now sm = (fwdResult, fwdV2, sm) ∧
    getActionStateFloat fwdResult fwdF getInfo leftHandPath tracked env now
        sm = (fwdResult, fwdF, sm) := by
  unfold getActionStateVector2f getActionStateFloat
  simp [h]

/-- Witness for C5 at the concrete failure code `XR_ERROR_HANDLE_INVALID`. -/
theorem C5_upstream_failure_witness :
    getActionStateVector2f XR_ERROR_HANDLE_INVALID ⟨0, 0, false, 0, false⟩
        ⟨7, 0⟩ 42 emptyTracked ⟨true, true, ⟨1, 1⟩⟩ 5000 ⟨false, false, 0⟩ =
      (XR_ERROR_HANDLE_INVALID, ⟨0, 0, false, 0, false⟩,
        ⟨false, false, 0⟩) ∧
    getActionStateFloat XR_ERROR_HANDLE_INVALID ⟨0, false, 0, false⟩ ⟨7, 0⟩
        42 emptyTracked ⟨true, true, ⟨1, 1⟩⟩ 5000 ⟨false, false, 0⟩ =
      (XR_ERROR_HANDLE_INVALID, ⟨0, false, 0, false⟩, ⟨false, false, 0⟩) :=
  C5_upstream_failure XR_ERROR_HANDLE_INVALID ⟨0, 0, false, 0, false⟩
    ⟨0, false, 0, false⟩ ⟨7, 0⟩ 42 emptyTracked ⟨true, true, ⟨1, 1⟩⟩ 5000
    ⟨false, false, 0⟩ (by decide)

/-- Claim C8: a get-state request whose subaction path is neither
`XR_NULL_PATH` nor the resolved left-hand path is never injected into:
both handlers return the forwarded result and state unmodified, for every
signal value, classification state, and even forwarded failure. -/
theorem C8_subaction_filter (fwdResult : XrResult) (fwdV2 : Vector2fState)
    (fwdF : FloatState) (getInfo : GetInfo) (leftHandPath : XrPath)
    (tracked : TrackedActions) (env : ProducerEnv) (now : Nat)
    (sm : SharedMemState) (h0 : getInfo.subactionPath ≠ XR_NULL_PATH)
    (hl : getInfo.subactionPath ≠ leftHandPath) :
    getActionStateVector2f fwdResult fwdV2 getInfo leftHandPath tracked env
        now sm = (fwdResult, fwdV2, sm) ∧
    getActionStateFloat fwdResult fwdF getInfo leftHandPath tracked env now
        sm = (fwdResult, fwdF, sm) := by
  unfold getActionStateVector2f getActionStateFloat
  have hb : (getInfo.subactionPath != XR_NULL_PATH &&
      getInfo.subactionPath != leftHandPath) = true := by
    simp [bne_iff_ne, h0, hl]
  simp [hb]

/-- Witness for C8: subaction path 9 with left-hand path 42, a live
nonzero signal, and a classification state that would otherwise fall back
to injecting every 2-D query. -/
theorem C8_subaction_filter_witness :
    getActionStateVector2f 0 ⟨0, 0, false, 0, false⟩ ⟨7, 9⟩ 42 emptyTracked
        ⟨true, true, ⟨1, 1⟩⟩ 5000 ⟨true, true, 0⟩ =
      (0, ⟨0, 0, false, 0, false⟩, ⟨true, true, 0⟩) ∧
    getActionStateFloat 0 ⟨0, false, 0, false⟩ ⟨7, 9⟩ 42 emptyTracked
        ⟨true, true, ⟨1, 1⟩⟩ 5000 ⟨true, true, 0⟩ =
      (0, ⟨0, false, 0, false⟩, ⟨true, true, 0⟩) :=
  C8_subaction_filter 0 ⟨0, 0, false, 0, false⟩ ⟨0, false, 0, false⟩ ⟨7, 9⟩
    42 emptyTracked ⟨true, true, ⟨1, 1⟩⟩ 5000 ⟨true, true, 0⟩ (by decide)
    (by decide)

/-- Claim C9: when the forwarded call succeeded and the Shared-Signal
Reader yields `0.0`, both handlers return the forwarded result code and
the forwarded state struct with every field unmodified, regardless of the
classification state. -/
theorem C9_zero_signal (fwdResult : XrResult) (fwdV2 : Vector2fState)
    (fwdF : FloatState) (getInfo : GetInfo) (leftHandPath : XrPath)
    (tracked : TrackedActions) (env : ProducerEnv) (now : Nat)
    (sm : SharedMemState) (hok : xrFailed fwdResult = false)
    (hz : (ReadTreadmillVelocity env now sm).1 = 0) :
    (getActionStateVector2f fwdResult fwdV2 getInfo leftHandPath tracked
        env now sm).1 = fwdResult ∧
    (getActionStateVector2f fwdResult fwdV2 getInfo leftHandPath tracked
        env now sm).2.1 = fwdV2 ∧
    (getActionStateFloat fwdResult fwdF getInfo leftHandPath tracked env
        now sm).1 = fwdResult ∧
    (getActionStateFloat fwdResult fwdF getInfo leftHandPath tracked env
        now sm).2.1 = fwdF := by
  unfold getActionStateVector2f getActionStateFloat
  simp only [hok, Bool.false_eq_true, if_false]
  split_ifs <;> simp [hz]

/-- Witness for C9: the retry cooldown has not elapsed, so the reader
reports `0.0` and the forwarded state passes through untouched. -/
theorem C9_zero_signal_witness :
    (getActionStateVector2f 0 ⟨0, 0, true, 3, true⟩ ⟨7, 0⟩ 42 emptyTracked
        ⟨true, true, ⟨1, 1⟩⟩ 1500 ⟨false, false, 1000⟩).1 = 0 ∧
    (getActionStateVector2f 0 ⟨0, 0, true, 3, true⟩ ⟨7, 0⟩ 42 emptyTracked
        ⟨true, true, ⟨1, 1⟩⟩ 1500 ⟨false, false, 1000⟩).2.1 =
      ⟨0, 0, true, 3, true⟩ ∧
    (getActionStateFloat 0 ⟨0, true, 3, true⟩ ⟨7, 0⟩ 42 emptyTracked
        ⟨true, true, ⟨1, 1⟩⟩ 1500 ⟨false, false, 1000⟩).1 = 0 ∧
    (getActionStateFloat 0 ⟨0, true, 3, true⟩ ⟨7, 0⟩ 42 emptyTracked
        ⟨true, true, ⟨1, 1⟩⟩ 1500 ⟨false, false, 1000⟩).2.1 =
      ⟨0, true, 3, true⟩ :=
  C9_zero_signal 0 ⟨0, 0, true, 3, true⟩ ⟨0, true, 3, true⟩ ⟨7, 0⟩ 42
    emptyTracked ⟨true, true, ⟨1, 1⟩⟩ 1500 ⟨false, false, 1000⟩ (by decide)
    (by rfl)

/-- Claim C10: `AddAction` never grows a tracking array beyond
`MAX_TRACKED_ACTIONS` (= 64) entries, and on an already-full array a new
key is silently ignored: the array is returned entirely unchanged. -/
theorem C10_addAction_capacity (arr : List ActionKey) (key : ActionKey) :
    (arr.length ≤ MAX_TRACKED_ACTIONS →
      (AddAction arr key).length ≤ MAX_TRACKED_ACTIONS) ∧
    (arr.length = MAX_TRACKED_ACTIONS → ContainsAction arr key = false →
      AddAction arr key = arr) := by
  unfold AddAction
  constructor
  · intro h
    split_ifs with h1 h2
    · exact h
    · exact h
    · simp only [List.length_append, List.length_cons, List.length_nil]
      unfold MAX_TRACKED_ACTIONS at *
      omega
  · intro h1 h2
    split_ifs with h3 h4
    · rfl
    · rfl
    · exact absurd (le_of_eq h1.symm) h3

/-- Witness for C10 on a full array of 64 distinct keys and the new key
100. -/
theorem C10_addAction_capacity_witness :
    (AddAction (List.range 64) 100).length ≤ MAX_TRACKED_ACTIONS ∧
    AddAction (List.range 64) 100 = List.range 64 :=
  ⟨(C10_addAction_capacity (List.range 64) 100).1 (by decide),
    (C10_addAction_capacity (List.range 64) 100).2 (by decide) (by decide)⟩

/-- Claim C1: whenever the policy decides to inject on a successfully
forwarded get-state call with signal value `v`, the injected component of
the returned state is `clamp(forwarded + v, -1, 1)` — the 2-D handler
touches only `y`, keeping `x` (and `lastChangeTime`) at their forwarded
values — both freshness flags are forced true unconditionally, and for
forwarded values and `v` in `[-1, 1]` the clamped result stays in
`[-1, 1]`. -/
theorem C1_injection_arithmetic (fwdResult : XrResult)
    (fwdV2 : Vector2fState) (fwdF : FloatState) (getInfo : GetInfo)
    (leftHandPath : XrPath) (tracked : TrackedActions) (env : ProducerEnv)
    (now : Nat) (sm : SharedMemState) (v : ℚ)
    (hok : xrFailed fwdResult = false)
    (hfilter : getInfo.subactionPath = XR_NULL_PATH ∨
      getInfo.subactionPath = leftHandPath)
    (hv : (ReadTreadmillVelocity env now sm).1 = v) (hvne : v ≠ 0) :
    (ContainsAction tracked.vec2f getInfo.action = true ∨
        tracked.bindingsReceived = false →
      (getActionStateVector2f fwdResult fwdV2 getInfo leftHandPath tracked
          env now sm).2.1 = injectVector2f fwdV2 v) ∧
    (ContainsAction tracked.floatY getInfo.action = true →
      (getActionStateFloat fwdResult fwdF getInfo leftHandPath tracked env
          now sm).2.1 = injectFloat fwdF v) ∧
    (∀ x w : ℚ, -1 ≤ x → x ≤ 1 → -1 ≤ w → w ≤ 1 →
      -1 ≤ clampUnit (x + w) ∧ clampUnit (x + w) ≤ 1) := by
  have hb : (getInfo.subactionPath != XR_NULL_PATH &&
      getInfo.subactionPath != leftHandPath) = false := by
    rcases hfilter with h | h <;> simp [h]
  refine ⟨?_, ?_, fun x w _ _ _ _ => clampUnit_mem (x + w)⟩
  · intro hdec
    unfold getActionStateVector2f
    simp [hok, hb, hv, hvne, injectVector2f]
    rw [if_pos hdec]
  · intro hdec
    unfold getActionStateFloat
    simp [hok, hb, hv, hvne, hdec, injectFloat]

/-- Witness for C1: handle 7 is classified in both sets, the producer
reports velocity 1, and both handlers return the injected structures. -/
theorem C1_injection_arithmetic_witness :
    (getActionStateVector2f 0 ⟨0, 0, false, 0, false⟩ ⟨7, 0⟩ 42
        ⟨[7], [7], true⟩ ⟨true, true, ⟨1, 1⟩⟩ 5000 ⟨true, true, 0⟩).2.1 =
      injectVector2f ⟨0, 0, false, 0, false⟩ 1 ∧
    (getActionStateFloat 0 ⟨0, false, 0, false⟩ ⟨7, 0⟩ 42 ⟨[7], [7], true⟩
        ⟨true, true, ⟨1, 1⟩⟩ 5000 ⟨true, true, 0⟩).2.1 =
      injectFloat ⟨0, false, 0, false⟩ 1 ∧
    (-1 ≤ clampUnit ((0 : ℚ) + 1) ∧ clampUnit ((0 : ℚ) + 1) ≤ 1) := by
  obtain ⟨h1, h2, h3⟩ := C1_injection_arithmetic 0 ⟨0, 0, false, 0, false⟩
    ⟨0, false, 0, false⟩ ⟨7, 0⟩ 42 ⟨[7], [7], true⟩ ⟨true, true, ⟨1, 1⟩⟩
    5000 ⟨true, true, 0⟩ 1 (by decide) (Or.inl rfl) (by rfl) (by decide)
  exact ⟨h1 (Or.inl (by decide)), h2 (by decide),
    h3 0 1 (by decide) (by decide) (by decide) (by decide)⟩

/-- Claim C3: under a successful forward, a passing subaction filter and a
nonzero signal, the 2-D handler injects for every handle while no bindings
have been observed; once bindings have been observed it injects exactly
when the handle is in `vec2f`. The scalar handler injects exactly when the
handle is in `floatY`, with no fallback in either classification state. -/
theorem C3_injection_decision (fwdResult : XrResult)
    (fwdV2 : Vector2fState) (fwdF : FloatState) (getInfo : GetInfo)
    (leftHandPath : XrPath) (tracked : TrackedActions) (env : ProducerEnv)
    (now : Nat) (sm : SharedMemState) (v : ℚ)
    (hok : xrFailed fwdResult = false)
    (hfilter : getInfo.subactionPath = XR_NULL_PATH ∨
      getInfo.subactionPath = leftHandPath)
    (hv : (ReadTreadmillVelocity env now sm).1 = v) (hvne : v ≠ 0) :
    (tracked.bindingsReceived = false →
      (getActionStateVector2f fwdResult fwdV2 getInfo leftHandPath tracked
          env now sm).2.1 = injectVector2f fwdV2 v) ∧
    (tracked.bindingsReceived = true →
      (getActionStateVector2f fwdResult fwdV2 getInfo leftHandPath tracked
          env now sm).2.1 =
        (if ContainsAction tracked.vec2f getInfo.action then
          injectVector2f fwdV2 v else fwdV2)) ∧
    (getActionStateFloat fwdResult fwdF getInfo leftHandPath tracked env
        now sm).2.1 =
      (if ContainsAction tracked.floatY getInfo.action then
        injectFloat fwdF v else fwdF) := by
  have hb : (getInfo.subactionPath != XR_NULL_PATH &&
      getInfo.subactionPath != leftHandPath) = false := by
    rcases hfilter with h | h <;> simp [h]
  refine ⟨?_, ?_, ?_⟩
  · intro hrec
    unfold getActionStateVector2f
    simp [hok, hb, hv, hvne, injectVector2f]
    rw [if_pos (Or.inr hrec)]
  · intro hrec
    unfold getActionStateVector2f
    cases hc : ContainsAction tracked.vec2f getInfo.action <;>
      simp [hok, hb, hv, hvne, hrec, hc, injectVector2f]
  · unfold getActionStateFloat
    cases hc : ContainsAction tracked.floatY getInfo.action <;>
      simp [hok, hb, hv, hvne, hc, injectFloat]

/-- Witness for C3: bindings observed, handle 8 in `vec2f` but not in
`floatY`, so the 2-D query injects and the scalar query passes through. -/
theorem C3_injection_decision_witness :
    (getActionStateVector2f 0 ⟨0, 0, false, 0, false⟩ ⟨8, 42⟩ 42
        ⟨[8], [9], true⟩ ⟨true, true, ⟨1, 1⟩⟩ 5000 ⟨true, true, 0⟩).2.1 =
      (if ContainsAction [8] 8 then
        injectVector2f ⟨0, 0, false, 0, false⟩ 1
      else ⟨0, 0, false, 0, false⟩) ∧
    (getActionStateFloat 0 ⟨0, false, 0, false⟩ ⟨8, 42⟩ 42 ⟨[8], [9], true⟩
        ⟨true, true, ⟨1, 1⟩⟩ 5000 ⟨true, true, 0⟩).2.1 =
      (if ContainsAction [9] 8 then injectFloat ⟨0, false, 0, false⟩ 1
      else ⟨0, false, 0, false⟩) := by
  obtain ⟨_, h2, h3⟩ := C3_injection_decision 0 ⟨0, 0, false, 0, false⟩
    ⟨0, false, 0, false⟩ ⟨8, 42⟩ 42 ⟨[8], [9], true⟩ ⟨true, true, ⟨1, 1⟩⟩
    5000 ⟨true, true, 0⟩ 1 (by decide) (Or.inr rfl) (by rfl) (by decide)
  exact ⟨h2 rfl, h3⟩

/-- Claim C2 (amended with the 64-entry capacity bound of the tracking
arrays): for a binding whose resolved path contains the left-hand and
thumbstick markers, a Y-suffix path adds the handle to `floatY` (provided
`floatY` holds fewer than 64 entries) and leaves `vec2f` unchanged; a path
with neither axis suffix adds the handle to `vec2f` (provided `vec2f`
holds fewer than 64 entries) and leaves `floatY` unchanged; an X-suffix
path (without a Y suffix) changes neither set. -/
theorem C2_classification (resolve : XrPath → Option (List Char))
    (t : TrackedActions) (b : Binding) (s : List Char)
    (hres : resolve b.binding = some s) (hne : s.isEmpty = false)
    (hleft : strstr leftHandMarker s = true)
    (hthumb : strstr thumbstickMarker s = true) :
    (strstr thumbstickYMarker s = true →
      (classifyBinding resolve t b).vec2f = t.vec2f ∧
      (t.floatY.length < MAX_TRACKED_ACTIONS →
        ContainsAction (classifyBinding resolve t b).floatY b.action =
          true)) ∧
    (strstr thumbstickYMarker s = false →
      strstr thumbstickXMarker s = false →
      (classifyBinding resolve t b).floatY = t.floatY ∧
      (t.vec2f.length < MAX_TRACKED_ACTIONS →
        ContainsAction (classifyBinding resolve t b).vec2f b.action =
          true)) ∧
    (strstr thumbstickYMarker s = false →
      strstr thumbstickXMarker s = true →
      (classifyBinding resolve t b).vec2f = t.vec2f ∧
      (classifyBinding resolve t b).floatY = t.floatY) := by
  refine ⟨?_, ?_, ?_⟩
  · intro hy
    constructor
    · simp [classifyBinding, hres, hne, hleft, hthumb, hy]
    · intro hlen
      simp only [classifyBinding, hres, hne, hleft, hthumb, hy,
        Bool.false_eq_true, if_false, Bool.and_self, if_true]
      exact AddAction_self t.floatY b.action hlen
  · intro hy hx
    constructor
    · simp [classifyBinding, hres, hne, hleft, hthumb, hy, hx]
    · intro hlen
      simp only [classifyBinding, hres, hne, hleft, hthumb, hy, hx,
        Bool.false_eq_true, if_false, Bool.and_self, if_true]
      exact AddAction_self t.vec2f b.action hlen
  · intro hy hx
    constructor <;> simp [classifyBinding, hres, hne, hleft, hthumb, hy, hx]

/-- Witness for C2 on binding path 1 (a left-thumbstick Y path) with
handle 7 against the empty classification state. -/
theorem C2_classification_witness :
    (classifyBinding demoResolve emptyTracked ⟨7, 1⟩).vec2f =
      emptyTracked.vec2f ∧
    ContainsAction (classifyBinding demoResolve emptyTracked ⟨7, 1⟩).floatY
      7 = true := by
  obtain ⟨h1, _, _⟩ := C2_classification demoResolve emptyTracked ⟨7, 1⟩
    "/user/hand/left/input/thumbstick/y".data rfl (by decide) (by decide)
    (by decide)
  obtain ⟨ha, hb⟩ := h1 (by decide)
  exact ⟨ha, hb (by decide)⟩

set_option maxRecDepth 100000 in
/-- Counterexample to C2 as stated: one classification event carries 65
distinct handles all bound to a resolvable left-thumbstick Y path; the
65th handle (key 100) satisfies every premise of the claim yet is not
added to `floatY`, because the array already holds 64 entries. -/
theorem C2_counterexample :
    demoResolve 1 = some "/user/hand/left/input/thumbstick/y".data ∧
    strstr leftHandMarker "/user/hand/left/input/thumbstick/y".data =
      true ∧
    strstr thumbstickMarker "/user/hand/left/input/thumbstick/y".data =
      true ∧
    strstr thumbstickYMarker "/user/hand/left/input/thumbstick/y".data =
      true ∧
    (⟨100, 1⟩ : Binding) ∈ fillingEvent ++ [⟨100, 1⟩] ∧
    ContainsAction
      (processBindings demoResolve (fillingEvent ++ [⟨100, 1⟩])
        emptyTracked).floatY 100 = false := by
  refine ⟨rfl, by decide, by decide, by decide, ?_, by decide⟩
  exact List.mem_append_right fillingEvent (List.mem_singleton.mpr rfl)

/-- Claim C4 (amended): every state reachable by classification events
keeps `floatY` and `vec2f` disjoint, provided no handle was suggested both
on a Y-suffix path and on a suffix-free thumbstick path among the
processed bindings. (Without that proviso the claim fails, see the
counterexample.) -/
theorem C4_mutual_exclusion (resolve : XrPath → Option (List Char))
    (bs : List Binding) (t : TrackedActions) (h : Reachable resolve bs t)
    (hconf : ∀ b1 ∈ bs, ∀ b2 ∈ bs, b1.action = b2.action →
      ¬(bindingTarget resolve b1 = BindingTarget.toFloatY ∧
        bindingTarget resolve b2 = BindingTarget.toVec2f)) :
    ∀ key, ¬(ContainsAction t.floatY key = true ∧
      ContainsAction t.vec2f key = true) := by
  rintro key ⟨hf, hv⟩
  obtain ⟨b1, hb1, hk1, ht1⟩ := reachable_floatY_origin resolve bs t h key hf
  obtain ⟨b2, hb2, hk2, ht2⟩ := reachable_vec2f_origin resolve bs t h key hv
  exact hconf b1 hb1 b2 hb2 (hk1.symm.trans hk2) ⟨ht1, ht2⟩

/-- A one-event state for the C4 witness: handle 7 on the Y path, handle
8 on the bare thumbstick path — no conflicting suggestion. -/
def demoState : TrackedActions :=
  (suggestInteractionProfileBindings 0 true demoResolve
    [⟨7, 1⟩, ⟨8, 2⟩] emptyTracked).2

/-- Witness for C4 on the concrete conflict-free one-event trace. -/
theorem C4_mutual_exclusion_witness :
    ¬(ContainsAction demoState.floatY 7 = true ∧
      ContainsAction demoState.vec2f 7 = true) := by
  have hr : Reachable demoResolve [⟨7, 1⟩, ⟨8, 2⟩] demoState := by
    simpa using @Reachable.step demoResolve [] emptyTracked 0 true
      [⟨7, 1⟩, ⟨8, 2⟩] Reachable.init
  exact C4_mutual_exclusion demoResolve [⟨7, 1⟩, ⟨8, 2⟩] demoState hr
    (by decide) 7

/-- The state reached by one event that suggests handle 5 both on the
Y-suffixed path and on the bare thumbstick path. -/
def conflictState : TrackedActions :=
  (suggestInteractionProfileBindings 0 true demoResolve
    [⟨5, 1⟩, ⟨5, 2⟩] emptyTracked).2

/-- Counterexample to C4 as stated: the reachable state `conflictState`
holds handle 5 in `floatY` and in `vec2f` at the same time. -/
theorem C4_counterexample :
    Reachable demoResolve [⟨5, 1⟩, ⟨5, 2⟩] conflictState ∧
    ContainsAction conflictState.floatY 5 = true ∧
    ContainsAction conflictState.vec2f 5 = true := by
  refine ⟨?_, by decide, by decide⟩
  simpa using @Reachable.step demoResolve [] emptyTracked 0 true
    [⟨5, 1⟩, ⟨5, 2⟩] Reachable.init

/-- Claim C6 describes intended behavior the code does not implement:
`createApiLayerInstance` never inspects the results of the five lookup
calls. With every lookup failing to resolve (all `none`), it still returns
`XR_SUCCESS` and the layer becomes active holding unresolved (null)
forwarding pointers, instead of returning
`XR_ERROR_INITIALIZATION_FAILED`. -/
theorem C6_unchecked_resolution :
    createApiLayerInstance true true true XR_SUCCESS noLookup =
      (XR_SUCCESS, true, noLookup) ∧
    noLookup.destroyInstance = none ∧ noLookup.suggestBindings = none ∧
    noLookup.getStateVector2f = none ∧ noLookup.getStateFloat = none :=
  ⟨rfl, rfl, rfl, rfl, rfl⟩

/-- Claim C7 describes intended behavior the code does not implement. In
the half-open state left by an attempt in which the region opened but the
view mapping failed (`handleOpen = true`, `mapped = false`),
`ReadTreadmillVelocity` returns 0 and stays unmapped even though the retry
interval has elapsed and the producer is open-and-mappable with a live
record — `OpenSharedMemory` early-outs on the already-open handle. From
the fully closed state, the very same call reconnects and returns the live
velocity. -/
theorem C7_half_open_never_reconnects :
    ReadTreadmillVelocity ⟨true, true, ⟨1, 1⟩⟩ 5000 ⟨true, false, 0⟩ =
      (0, ⟨true, false, 5000⟩) ∧
    ReadTreadmillVelocity ⟨true, true, ⟨1, 1⟩⟩ 5000 ⟨false, false, 0⟩ =
      (1, ⟨true, true, 5000⟩) :=
  ⟨rfl, rfl⟩

end TreadmillLayer
